import Mathlib

/-!
Verification development for the slackmail repository.

The definitions below are shallow embeddings of the TypeScript sources:
  packages/core/src/presentation/emailFormatter.ts
  packages/core/src/presentation/slackApp.ts
  packages/core/src/presentation (message URL parsing)
  packages/core/src/application/usecases/sendMailUseCase.ts
  infra/aws/src/infrastructure/sesMailRepository.ts

JavaScript strings are sequences of UTF-16 code units, and both
String.prototype.length and String.prototype.substring operate on code
units.  Where lengths matter (the formatter limits) strings are therefore
modelled as lists of code units (JStr below).  External collaborators
(the html-to-text converter, the Slack SDK calls, the SES transport, the
configuration store) are modelled as explicit parameters carrying their
observable responses.
-/

namespace Slackmail

set_option maxRecDepth 40000

/-- A JavaScript string: a list of UTF-16 code units. -/
abbrev JStr := List Nat

/-- Encode a Lean string whose characters all lie in the basic multilingual
plane as its UTF-16 code units (for such strings the code units coincide
with the code points). -/
def jstr (s : String) : JStr := s.data.map Char.toNat

/-- The two-code-unit surrogate pair for the e-mail emoji followed by a
space: the literal prefix of the header and preview text in
emailFormatter.ts.  This occupies three UTF-16 code units. -/
def emailEmojiSp : JStr := [0xD83D, 0xDCE7, 0x20]

/-- JavaScript truthiness of a possibly-absent string: undefined and the
empty string are falsy. -/
def jsTruthy : Option JStr → Bool
  | none => false
  | some s => !s.isEmpty

/-- JavaScript a || b for strings: the empty string falls through. -/
def jsOr (s d : String) : String := if s = "" then d else s

/-- JavaScript a || b where a is a possibly-absent string. -/
def jsOrOpt (o : Option String) (d : String) : String :=
  match o with
  | some s => jsOr s d
  | none => d

/-- Code units removed by String.prototype.trim (WhiteSpace and
LineTerminator code points). -/
def isJsWhitespace (c : Nat) : Bool :=
  c = 0x9 || c = 0xA || c = 0xB || c = 0xC || c = 0xD || c = 0x20 ||
  c = 0xA0 || c = 0x1680 || (0x2000 ≤ c && c ≤ 0x200A) || c = 0x2028 ||
  c = 0x2029 || c = 0x202F || c = 0x205F || c = 0x3000 || c = 0xFEFF

/-- String.prototype.trim. -/
def jsTrim (s : JStr) : JStr :=
  ((s.dropWhile isJsWhitespace).reverse.dropWhile isJsWhitespace).reverse

/-! ## Data model (packages/core/src/domain/entities) -/

/-- EmailAddress: name is optional. -/
structure EmailAddress where
  name : Option JStr
  address : JStr
  deriving DecidableEq

/-- The body field of an Email: at least one of text and html in
well-formed mail, though the code tolerates both absent. -/
structure EmailBody where
  text : Option JStr
  html : Option JStr
  deriving DecidableEq

/-- Email entity.  The date field is an epoch-millisecond stamp. -/
structure Email where
  messageId : JStr
  fromAddr : EmailAddress
  toAddrs : List EmailAddress
  cc : Option (List EmailAddress) := none
  bcc : Option (List EmailAddress) := none
  replyTo : Option EmailAddress := none
  subject : JStr
  body : EmailBody
  date : Nat := 0
  inReplyTo : Option JStr := none
  references : Option (List JStr) := none
  deriving DecidableEq

/-! ## MessageFormatter (emailFormatter.ts) -/

/-- formatEmailAddress: "Name <address>" or the bare address when the name
is absent or empty (JavaScript truthiness). -/
def formatEmailAddress (a : EmailAddress) : JStr :=
  if jsTruthy a.name then a.name.getD [] ++ jstr " <" ++ a.address ++ jstr ">"
  else a.address

/-- formatEmailAddresses: join with ", ". -/
def formatEmailAddresses (addrs : List EmailAddress) : JStr :=
  List.intercalate (jstr ", ") (addrs.map formatEmailAddress)

/-- getEmailBodyText.  The html-to-text conversion is an external library
call (convertHtmlToText wraps the html-to-text package); it is modelled by
the convertHtml parameter. -/
def getEmailBodyText (convertHtml : JStr → JStr) (body : EmailBody) : JStr :=
  if jsTruthy body.text then jsTrim (body.text.getD [])
  else if jsTruthy body.html then convertHtml (body.html.getD [])
  else jstr "(no body)"

/-- HEADER_TEXT_LIMIT in emailFormatter.ts. -/
def HEADER_TEXT_LIMIT : Nat := 140

/-- BODY_TEXT_LIMIT in emailFormatter.ts. -/
def BODY_TEXT_LIMIT : Nat := 2800

/-- truncateText: return the text unchanged when within the limit, else
cut to limit - 3 code units and append three dots. -/
def truncateText (text : JStr) (limit : Nat) : JStr :=
  if text.length ≤ limit then text
  else text.take (limit - 3) ++ jstr "..."

/-- Slack Block Kit blocks produced by the formatter and by the
attachment-failure update in slackApp.ts. -/
inductive Block where
  | header (text : JStr)
  | sectionFields (fields : List JStr)
  | sectionText (text : JStr)
  | divider
  | context (elements : List JStr)
  deriving DecidableEq

/-- The optional bodyAsFile payload. -/
structure FileAttachment where
  content : JStr
  filename : JStr
  deriving DecidableEq

/-- The value returned by formatEmailForSlack. -/
structure FormattedMessage where
  text : JStr
  blocks : List Block
  bodyAsFile : Option FileAttachment
  deriving DecidableEq

/-- formatEmailForSlack, translated line by line from emailFormatter.ts.
Note that an empty cc array is truthy in JavaScript, so ccText is then the
empty string, which is falsy at the later if (ccText) check: the Cc block
is omitted both for an absent and for an empty cc list. -/
def formatEmailForSlack (convertHtml : JStr → JStr) (email : Email) :
    FormattedMessage :=
  let fromText := formatEmailAddress email.fromAddr
  let toText := formatEmailAddresses email.toAddrs
  let ccText : Option JStr := email.cc.map formatEmailAddresses
  let text := emailEmojiSp ++ email.subject ++ jstr " from " ++ fromText
  let headerText := truncateText (emailEmojiSp ++ email.subject) HEADER_TEXT_LIMIT
  let baseBlocks : List Block :=
    [Block.header headerText,
     Block.sectionFields [jstr "*From:*\n" ++ fromText, jstr "*To:*\n" ++ toText]]
  let blocks1 : List Block :=
    if jsTruthy ccText then
      baseBlocks ++ [Block.sectionFields [jstr "*Cc:*\n" ++ ccText.getD []]]
    else baseBlocks
  let bodyText := getEmailBodyText convertHtml email.body
  if bodyText.length > BODY_TEXT_LIMIT then
    { text := text
      blocks := blocks1 ++
        [Block.divider,
         Block.sectionText (truncateText bodyText BODY_TEXT_LIMIT ++
           jstr "\n\n_Full email body attached as file._")]
      bodyAsFile := some
        { content := bodyText
          filename := jstr "email-body-" ++ email.messageId ++ jstr ".txt" } }
  else
    { text := text
      blocks := blocks1 ++ [Block.divider, Block.sectionText bodyText]
      bodyAsFile := none }

/-! ## DeliveryCoordinator (slackApp.ts) -/

/-- SlackPostError: message plus an optional structured code. -/
structure SlackPostError where
  message : String
  code : Option String
  deriving DecidableEq

/-- The fixed non-retryable code list inside createEmailReceivedHandler. -/
def nonRetryableCodes : List String :=
  ["invalid_channel", "channel_not_found", "not_in_channel", "is_archived",
   "invalid_auth", "not_authed", "account_inactive", "token_revoked",
   "token_expired", "no_permission", "missing_scope"]

/-- An error caught by the retry loop: either a SlackPostError or a
generic Error (anything failing the instanceof SlackPostError test). -/
inductive ThrownError where
  | slackPost (e : SlackPostError)
  | generic (message : String)
  deriving DecidableEq

/-- The message carried by a thrown error. -/
def errMessage : ThrownError → String
  | .slackPost e => e.message
  | .generic m => m

/-- The code the retry loop reads off a thrown error: only SlackPostError
instances carry one. -/
def errCode : ThrownError → Option String
  | .slackPost e => e.code
  | .generic _ => none

/-- The classification test in createEmailReceivedHandler:
lastError instanceof SlackPostError, lastError.code truthy, and the code a
member of the fixed list.  (The empty string is falsy in JavaScript and is
also not in the list, so membership alone is equivalent.) -/
def isNonRetryableThrown : ThrownError → Bool
  | .slackPost e =>
    match e.code with
    | some c => nonRetryableCodes.contains c
    | none => false
  | .generic _ => false

/-- The errorMessages table in getSlackErrorMessage. -/
def slackErrorMessages : List (String × String) :=
  [("channel_not_found", "Slack channel not found. Please check SLACK_CHANNEL_ID."),
   ("not_in_channel", "Bot is not a member of the channel. Please invite the bot."),
   ("is_archived", "The channel has been archived."),
   ("invalid_auth", "Invalid Slack bot token. Please check SLACK_BOT_TOKEN."),
   ("not_authed", "No authentication token provided. Please set SLACK_BOT_TOKEN."),
   ("account_inactive", "Slack workspace or user account is inactive. Please check workspace status."),
   ("token_revoked", "Slack bot token has been revoked. Please regenerate the token."),
   ("token_expired", "Slack bot token has expired. Please regenerate the token."),
   ("no_permission", "Bot lacks required permissions. Please check OAuth scopes."),
   ("missing_scope", "Bot is missing required OAuth scopes. Please add chat:write scope."),
   ("msg_too_long", "Message is too long for Slack."),
   ("rate_limited", "Rate limited by Slack API. Please retry later.")]

/-- getSlackErrorMessage: table lookup with a generic fallback (none of
the table entries is empty, so JavaScript || agrees with getD). -/
def getSlackErrorMessage (errorCode : String) : String :=
  (slackErrorMessages.lookup errorCode).getD ("Slack API error: " ++ errorCode)

/-- An exception thrown by a Slack SDK call, as read by the catch block of
postEmailToSlack: an optional code, an optional message, and the two
fields read from the optional data payload (none models both an absent
data object and an absent field). -/
structure ClientError where
  code : Option String
  message : Option String
  dataError : Option String
  dataMessage : Option String
  deriving DecidableEq

/-- The chat.postMessage resolved value, as read by postEmailToSlack. -/
structure PostMessageResponse where
  ok : Bool
  ts : Option String
  error : Option String
  deriving DecidableEq

/-- Observable responses of the three Slack SDK calls one postEmailToSlack
invocation can make. -/
structure ChatBehavior where
  postMessage : Except ClientError PostMessageResponse
  upload : Except ClientError Unit
  update : Except ClientError Unit

/-- Arguments of a chat.update call issued by postEmailToSlack. -/
structure UpdateCall where
  channel : String
  ts : String
  text : JStr
  blocks : List Block
  deriving DecidableEq

/-- Result of postEmailToSlack: the resolved return value or the
SlackPostError it throws. -/
inductive PostReturn where
  | ok (ts : Option String)
  | thrown (e : SlackPostError)
  deriving DecidableEq

/-- Return value plus the effect trace of one postEmailToSlack call. -/
structure PostEffects where
  result : PostReturn
  uploadCalls : Nat
  updateCalls : List UpdateCall
  deriving DecidableEq

/-- The tail of the catch block of postEmailToSlack, mapping an exception
that is not already a SlackPostError: unwrap the
slack_webapi_platform_error envelope (falling back to the
unknown_platform_error sentinel when the envelope carries no inner code),
otherwise map the code through getSlackErrorMessage. -/
def mapThrownClientError (e : ClientError) : SlackPostError :=
  let errorCode := jsOrOpt e.code "unknown_error"
  if errorCode = "slack_webapi_platform_error" then
    let actualError := jsOrOpt e.dataError "unknown_platform_error"
    let actualMessage := jsOrOpt e.dataMessage (jsOrOpt e.message "Unknown error")
    { message := "Slack API error: slack_webapi_platform_error (actual: " ++
        actualError ++ ")\nOriginal message: " ++ actualMessage
      code := some actualError }
  else
    { message := getSlackErrorMessage errorCode, code := some errorCode }

/-- JavaScript truthiness of result.ts. -/
def jsTruthyS : Option String → Bool
  | none => false
  | some s => !(s == "")

/-- postEmailToSlack, translated from slackApp.ts.  The sleep-free control
flow of a single attempt: reject an empty channel, post the formatted
message, and when the formatter produced a bodyAsFile upload it as a
threaded reply; on upload failure update the original message with a
visible warning context element and throw a SlackPostError with code
file_upload_error.  The update response is part of the behavior: when the
update call itself rejects, that exception reaches the outer catch
instead. -/
def postEmailToSlack (convertHtml : JStr → JStr) (behavior : ChatBehavior)
    (channel : String) (email : Email) : PostEffects :=
  if (jsTrim (jstr channel)).isEmpty then
    { result := .thrown { message := "Channel cannot be empty", code := some "invalid_channel" }
      uploadCalls := 0, updateCalls := [] }
  else
    let fmt := formatEmailForSlack convertHtml email
    match behavior.postMessage with
    | .error ce =>
      { result := .thrown (mapThrownClientError ce), uploadCalls := 0, updateCalls := [] }
    | .ok resp =>
      if !resp.ok || !jsTruthyS resp.ts then
        let ec := jsOrOpt resp.error "unknown_error"
        { result := .thrown { message := getSlackErrorMessage ec, code := some ec }
          uploadCalls := 0, updateCalls := [] }
      else
        match fmt.bodyAsFile with
        | none => { result := .ok resp.ts, uploadCalls := 0, updateCalls := [] }
        | some _ =>
          match behavior.upload with
          | .ok _ => { result := .ok resp.ts, uploadCalls := 1, updateCalls := [] }
          | .error ue =>
            let call : UpdateCall :=
              { channel := channel
                ts := resp.ts.getD ""
                text := fmt.text ++ jstr " (Attachment failed to upload)"
                blocks := fmt.blocks ++
                  [Block.context [jstr ":warning: *Attachment failed to upload.*"]] }
            match behavior.update with
            | .ok _ =>
              { result := .thrown
                  { message := "Failed to upload email attachment: " ++
                      (ue.message.getD "File upload failed")
                    code := some "file_upload_error" }
                uploadCalls := 1, updateCalls := [call] }
            | .error ce2 =>
              { result := .thrown (mapThrownClientError ce2)
                uploadCalls := 1, updateCalls := [call] }

/-- What the retry loop observes of one attempt. -/
inductive PostOutcome where
  | success
  | failure (e : ThrownError)
  deriving DecidableEq

/-- View a postEmailToSlack invocation as an attempt outcome for the
retry loop (everything postEmailToSlack throws is a SlackPostError). -/
def toPostOutcome (p : PostEffects) : PostOutcome :=
  match p.result with
  | .ok _ => .success
  | .thrown e => .failure (.slackPost e)

/-- FailedEmailRecord handed to the dead-letter handler.  The timestamp
field (new Date() at dead-letter time) is an external clock read and is
not modelled. -/
structure FailedEmailRecord where
  email : Email
  channel : String
  error : String
  errorCode : Option String
  attempts : Nat
  deriving DecidableEq

/-- The for-loop of createEmailReceivedHandler, run from iteration index
retry with the given number of loop iterations remaining.  post gives the
outcome of the attempt with a given retry index (attempt retry + 1); the
backoff sleep before each re-attempt has no observable effect beyond time
and is not modelled.  Returns the number of post invocations made and,
when no attempt succeeded, the last error (the loop either breaks on a
non-retryable code or exhausts its budget). -/
def attemptLoop (post : Nat → PostOutcome) (retry : Nat) :
    Nat → Nat × Option ThrownError
  | 0 => (0, none)
  | remaining + 1 =>
    match post retry with
    | .success => (1, none)
    | .failure e =>
      if isNonRetryableThrown e then (1, some e)
      else
        match remaining with
        | 0 => (1, some e)
        | _ + 1 =>
          let r := attemptLoop post (retry + 1) remaining
          (r.1 + 1, r.2)

/-- Observable outcome of the function returned by
createEmailReceivedHandler: how many times postEmailToSlack was invoked,
the record handed to the dead-letter handler (none when delivery
succeeded, and the handler is invoked exactly once otherwise), and the
error re-thrown to the caller. -/
structure DeliverResult where
  postCalls : Nat
  deadLetter : Option FailedEmailRecord
  thrown : Option ThrownError
  deriving DecidableEq

/-- The function returned by createEmailReceivedHandler with configuration
maxRetries (default 2): run the attempt loop for maxRetries + 1
iterations; on a failing run build the FailedEmailRecord (message with
the Unknown error fallback, code only for SlackPostError instances,
attempts as counted by the loop), hand it to onFailure and re-throw the
last error. -/
def deliverWithRetry (email : Email) (channel : String) (maxRetries : Nat)
    (post : Nat → PostOutcome) : DeliverResult :=
  let r := attemptLoop post 0 (maxRetries + 1)
  match r.2 with
  | none => { postCalls := r.1, deadLetter := none, thrown := none }
  | some e =>
    { postCalls := r.1
      deadLetter := some
        { email := email, channel := channel
          error := jsOr (errMessage e) "Unknown error"
          errorCode := errCode e
          attempts := r.1 }
      thrown := some e }

/-! ## SenderDomainGuard and SES dispatch (sesMailRepository.ts) -/

/-- String.prototype.split(sep): split at every occurrence of the
separator; adjacent separators and separators at either end yield empty
segments, and a string without the separator yields the one-element list
of itself. -/
def splitOnSep {α : Type} [DecidableEq α] (sep : α) : List α → List (List α)
  | [] => [[]]
  | a :: rest =>
    if a = sep then [] :: splitOnSep sep rest
    else
      match splitOnSep sep rest with
      | [] => [[a]]
      | grp :: gs => (a :: grp) :: gs

/-- The UTF-16 code unit of the at sign. -/
def atUnit : Nat := 0x40

/-- Domain verification status values. -/
inductive VerificationStatus where
  | pending
  | verified
  | failed
  deriving DecidableEq

/-- Render a verification status the way template interpolation does. -/
def statusText : VerificationStatus → JStr
  | .pending => jstr "pending"
  | .verified => jstr "verified"
  | .failed => jstr "failed"

/-- Domain record (tenantConfig.ts).  Only the fields the embedded code
reads are carried: domainId, teamId, domain and verificationStatus (the
ARN, DKIM, mail-from, default-sender and creation fields are never read
by the code under verification). -/
structure Domain where
  domainId : JStr
  teamId : JStr
  domain : JStr
  verificationStatus : VerificationStatus
  deriving DecidableEq

/-- TenantConfig (tenantConfig.ts).  Only teamId is read by the embedded
code; the installation metadata fields are never read by it. -/
structure TenantConfig where
  teamId : JStr
  deriving DecidableEq

/-- SendContext (sendContext entity). -/
structure SendContext where
  tenantConfig : TenantConfig
  domain : Domain
  slackTeamId : JStr
  slackChannelId : JStr
  slackUserId : JStr
  deriving DecidableEq

/-- validateSenderDomain in sesMailRepository.ts: read
sender.address.split(at)[1]; fail when it is absent or empty (JavaScript
falsiness), fail when the resolved domain is not verified, fail when the
part does not strictly equal the domain field (code-unit equality, hence
case-sensitive), else succeed. -/
def validateSenderDomain (sender : EmailAddress) (ctxDomain : Domain) :
    Except JStr Unit :=
  match (splitOnSep atUnit sender.address).get? 1 with
  | none =>
    .error (jstr "Invalid sender address: " ++ sender.address ++
      jstr ". Missing domain part.")
  | some senderDomainPart =>
    if senderDomainPart.isEmpty then
      .error (jstr "Invalid sender address: " ++ sender.address ++
        jstr ". Missing domain part.")
    else if ctxDomain.verificationStatus ≠ .verified then
      .error (jstr "Domain " ++ ctxDomain.domain ++
        jstr " is not verified. Status: " ++ statusText ctxDomain.verificationStatus)
    else if senderDomainPart ≠ ctxDomain.domain then
      .error (jstr "Invalid sender domain: " ++ senderDomainPart ++
        jstr ". Must be @" ++ ctxDomain.domain)
    else .ok ()

/-- SESMailRepository.sendEmail: validate the sender domain first (outside
the try block, so guard errors propagate unwrapped), then run the
nodemailer + SES transport.  The transport is external and is modelled by
sesResult: an error message (wrapped by the catch block) or the optional
MessageId of the SES response, with the nullish fallback to the local
message id. -/
def sesSendEmail (sesResult : Except JStr (Option JStr)) (email : Email)
    (context : SendContext) : Except JStr JStr :=
  match validateSenderDomain email.fromAddr context.domain with
  | .error e => .error e
  | .ok _ =>
    match sesResult with
    | .error msg => .error (jstr "Failed to send email via SES: " ++ msg)
    | .ok mid => .ok (mid.getD email.messageId)

/-! ## SendMailUseCase (sendMailUseCase.ts, multi-tenant version) -/

/-- Input data for sending an email. -/
structure SendMailInput where
  fromAddr : EmailAddress
  toAddrs : List EmailAddress
  cc : Option (List EmailAddress) := none
  bcc : Option (List EmailAddress) := none
  replyTo : Option EmailAddress := none
  subject : JStr
  body : EmailBody
  inReplyTo : Option JStr := none
  references : Option (List JStr) := none
  deriving DecidableEq

/-- Slack context for a send. -/
structure SendMailContext where
  slackTeamId : JStr
  slackChannelId : JStr
  slackUserId : JStr
  selectedDomainId : Option JStr := none
  deriving DecidableEq

/-- Output of the use case. -/
structure SendMailOutput where
  messageId : JStr
  deriving DecidableEq

/-- EmailLog entry appended after a successful dispatch. -/
structure EmailLog where
  messageId : JStr
  teamId : JStr
  channelId : JStr
  userId : JStr
  fromAddress : JStr
  toAddresses : List JStr
  subject : JStr
  status : JStr
  sentAt : Nat
  ttl : Nat
  deriving DecidableEq

/-- SendMailUseCase.validate, checked in source order with first-failure
semantics.  Every check is a JavaScript falsiness test on a string or an
emptiness test on an array; each address loop throws the same message for
every offending entry, so an any-test is equivalent to the first-hit
throw. -/
def validateSendMailInput (input : SendMailInput) : Except JStr Unit :=
  if input.fromAddr.address.isEmpty then
    .error (jstr "From address is required")
  else if input.toAddrs.isEmpty then
    .error (jstr "At least one To address is required")
  else if input.toAddrs.any (fun a => a.address.isEmpty) then
    .error (jstr "Invalid To address: address is required")
  else if (input.cc.getD []).any (fun a => a.address.isEmpty) then
    .error (jstr "Invalid CC address: address is required")
  else if (input.bcc.getD []).any (fun a => a.address.isEmpty) then
    .error (jstr "Invalid BCC address: address is required")
  else if (jsTrim input.subject).isEmpty then
    .error (jstr "Subject is required")
  else if !jsTruthy input.body.text && !jsTruthy input.body.html then
    .error (jstr "Email body is required (text or html)")
  else .ok ()

/-- 90 days in milliseconds: ttlDate.setDate(getDate() + 90) advances the
clock by ninety calendar days, which is 90 x 86,400,000 ms (exact in UTC
and in any fixed-offset timezone). -/
def ninetyDaysMs : Nat := 90 * 86400000

/-- Result and effect trace of SendMailUseCase.execute: the returned or
thrown value, the sendEmail dispatch calls made, and the EmailLog entries
appended through saveEmailLog. -/
structure ExecResult where
  result : Except JStr SendMailOutput
  dispatched : List (Email × SendContext)
  logs : List EmailLog

/-- SendMailUseCase.execute, translated from sendMailUseCase.ts.  The
repositories are modelled by their observable data: tenantConfig is the
getTenantConfig response, domains the getDomainsByTeamId response, and
sendEmail the MailRepository dispatch.  newMessageId models the privately
generated message id (timestamp.random at slackmail) and now the
Date.now clock in epoch milliseconds. -/
def executeSendMail (sendEmail : Email → SendContext → Except JStr JStr)
    (tenantConfig : Option TenantConfig) (domains : List Domain)
    (newMessageId : JStr) (now : Nat)
    (input : SendMailInput) (ctx : SendMailContext) : ExecResult :=
  match validateSendMailInput input with
  | .error e => { result := .error e, dispatched := [], logs := [] }
  | .ok _ =>
    match tenantConfig with
    | none =>
      { result := .error (jstr "Tenant configuration not found for team " ++ ctx.slackTeamId)
        dispatched := [], logs := [] }
    | some tc =>
      match domains with
      | [] =>
        { result := .error (jstr "No email domains configured for team " ++ ctx.slackTeamId)
          dispatched := [], logs := [] }
      | d0 :: rest =>
        let sel : Except JStr Domain :=
          match ctx.selectedDomainId with
          | none => .ok d0
          | some did =>
            match (d0 :: rest).find? (fun d => d.domainId == did) with
            | some d => .ok d
            | none =>
              .error (jstr "Domain " ++ did ++ jstr " not found for team " ++ ctx.slackTeamId)
        match sel with
        | .error e => { result := .error e, dispatched := [], logs := [] }
        | .ok selectedDomain =>
          let email : Email :=
            { messageId := newMessageId
              fromAddr := input.fromAddr
              toAddrs := input.toAddrs
              cc := input.cc
              bcc := input.bcc
              replyTo := input.replyTo
              subject := input.subject
              body := input.body
              date := now
              inReplyTo := input.inReplyTo
              references := input.references }
          let sendContext : SendContext :=
            { tenantConfig := tc
              domain := selectedDomain
              slackTeamId := ctx.slackTeamId
              slackChannelId := ctx.slackChannelId
              slackUserId := ctx.slackUserId }
          match sendEmail email sendContext with
          | .error e =>
            { result := .error e, dispatched := [(email, sendContext)], logs := [] }
          | .ok messageId =>
            { result := .ok { messageId := messageId }
              dispatched := [(email, sendContext)]
              logs := [{ messageId := messageId
                         teamId := ctx.slackTeamId
                         channelId := ctx.slackChannelId
                         userId := ctx.slackUserId
                         fromAddress := input.fromAddr.address
                         toAddresses := input.toAddrs.map (fun a => a.address)
                         subject := input.subject
                         status := jstr "sent"
                         sentAt := now
                         ttl := (now + ninetyDaysMs) / 1000 }] }

/-! ## Message URL parsing (messageUrlParser) -/

/-- Parsed channel id and API-format timestamp. -/
structure ParsedMessageUrl where
  channelId : List Char
  timestamp : List Char
  deriving DecidableEq

/-- The two throw sites of parseMessageUrl. -/
inductive MessageUrlParseError where
  | invalidFormat
  | invalidTimestamp
  deriving DecidableEq

/-- The channel-id character class of the URL pattern: A-Z or 0-9. -/
def isChannelChar (c : Char) : Bool :=
  (decide (c ≥ 'A') && decide (c ≤ 'Z')) || c.isDigit

/-- Drop an expected leading segment: some rest when the first argument
leads the second, none otherwise. -/
def stripLeading {α : Type} [DecidableEq α] : List α → List α → Option (List α)
  | [], s => some s
  | _ :: _, [] => none
  | p :: ps, a :: as => if p = a then stripLeading ps as else none

/-- The host test of the URL pattern: some nonempty workspace name with no
slash, followed by the literal .slack.com. -/
def hostOk (host : List Char) : Bool :=
  decide (host.length > 10) &&
    decide (host.drop (host.length - 10) = ".slack.com".data)

/-- The anchored regular expression of parseMessageUrl,
https colon-slash-slash [^/]+ .slack.com /archives/ capture([A-Z0-9]+) /p
capture(digits) end, decided by decomposing the input: the fixed scheme,
then exactly four slash-separated segments - the host (checked by
hostOk), the literal archives, the channel id, and p followed by the
digit run.  None of the classes may contain a slash, so the slash
structure of any matching string is exactly this decomposition, and the
two captures returned here are those of the regex. -/
def matchUrl (url : List Char) : Option (List Char × List Char) :=
  match stripLeading "https://".data url with
  | none => none
  | some rest =>
    match splitOnSep '/' rest with
    | [host, seg, chan, pseg] =>
      if seg = "archives".data ∧ hostOk host ∧ chan ≠ [] ∧ chan.all isChannelChar then
        match pseg with
        | 'p' :: ds => if ds ≠ [] ∧ ds.all Char.isDigit then some (chan, ds) else none
        | _ => none
      else none
    | _ => none

/-- parseMessageUrl: match the pattern (else the invalid-format error),
require at least 10 digits (else the invalid-timestamp error), and insert
the decimal point after the first 10 digits. -/
def parseMessageUrl (url : List Char) : Except MessageUrlParseError ParsedMessageUrl :=
  match matchUrl url with
  | none => .error .invalidFormat
  | some (chan, ds) =>
    if ds.length < 10 then .error .invalidTimestamp
    else .ok { channelId := chan, timestamp := ds.take 10 ++ '.' :: ds.drop 10 }

/-- A URL of the documented shape, written so that the slash-separated
segment structure is explicit; appending the pieces flat gives
https:// w .slack.com/archives/ c /p d. -/
def slackUrl (w c d : List Char) : List Char :=
  "https://".data ++ ((w ++ ".slack.com".data) ++
    '/' :: ("archives".data ++ '/' :: (c ++ '/' :: ('p' :: d))))

/-! ## Concrete inputs used by witnesses and counterexamples -/

/-- A 140-code-unit subject (140 letters a). -/
def c4Subject : JStr := List.replicate 140 97

/-- An email whose subject has exactly 140 code units. -/
def c4Email : Email :=
  { messageId := jstr "m1"
    fromAddr := { name := none, address := jstr "sender@example.com" }
    toAddrs := [{ name := none, address := jstr "recipient@example.com" }]
    subject := c4Subject
    body := { text := some (jstr "hi"), html := none } }

/-- An email with a short subject. -/
def c4wEmail : Email :=
  { messageId := jstr "m2"
    fromAddr := { name := none, address := jstr "sender@example.com" }
    toAddrs := [{ name := none, address := jstr "recipient@example.com" }]
    subject := jstr "Hello"
    body := { text := some (jstr "hi"), html := none } }

/-- An email whose plain-text body has 2801 code units (2801 letters a). -/
def c5Email : Email :=
  { messageId := jstr "m3"
    fromAddr := { name := none, address := jstr "sender@example.com" }
    toAddrs := [{ name := none, address := jstr "recipient@example.com" }]
    subject := jstr "Long"
    body := { text := some (List.replicate 2801 97), html := none } }

/-- Slack SDK responses where the message posts fine and the threaded
file upload rejects. -/
def c3Behavior : ChatBehavior :=
  { postMessage := .ok { ok := true, ts := some "12345.67", error := none }
    upload := .error { code := none, message := some "File upload failed",
                       dataError := none, dataMessage := none }
    update := .ok () }

/-- The attempt function induced by postEmailToSlack under c3Behavior on
the long email: every attempt posts, fails the upload, and throws the
file-upload error. -/
def c3Post : Nat → PostOutcome :=
  fun _ => toPostOutcome (postEmailToSlack (fun h => h) c3Behavior "C12345" c5Email)

/-- Slack SDK responses where chat.postMessage rejects with a platform
error envelope that carries no nested code. -/
def c10Behavior : ChatBehavior :=
  { postMessage := .error { code := some "slack_webapi_platform_error"
                            message := some "An API error occurred"
                            dataError := none, dataMessage := none }
    upload := .ok (), update := .ok () }

/-- A verified tenant domain. -/
def c7Domain : Domain :=
  { domainId := jstr "d1", teamId := jstr "T1", domain := jstr "verified.com"
    verificationStatus := .verified }

/-- A send whose from-address lives outside the verified domain. -/
def c7Input : SendMailInput :=
  { fromAddr := { name := none, address := jstr "x@unverified.com" }
    toAddrs := [{ name := none, address := jstr "r@y.com" }]
    subject := jstr "Hi"
    body := { text := some (jstr "b"), html := none } }

/-- Slack context with no selected domain. -/
def c7Ctx : SendMailContext :=
  { slackTeamId := jstr "T1", slackChannelId := jstr "C1", slackUserId := jstr "U1" }

/-- The guard error produced for c7Input against c7Domain. -/
def c7ErrMsg : JStr :=
  jstr "Invalid sender domain: unverified.com. Must be @verified.com"

/-- A valid send from the verified domain. -/
def c8Input : SendMailInput :=
  { fromAddr := { name := none, address := jstr "x@verified.com" }
    toAddrs := [{ name := none, address := jstr "r@y.com" }]
    subject := jstr "Hi"
    body := { text := some (jstr "b"), html := none } }

/-! ## Theorems -/

/-- When every attempt fails with a retryable error, the loop runs its
whole budget: starting at iteration index start with k + 1 iterations
remaining it makes k + 1 post calls and ends carrying the error of the
last attempt. -/
theorem attemptLoop_allFail (post : Nat → PostOutcome)
    (h : ∀ i, ∃ e, post i = .failure e ∧ isNonRetryableThrown e = false) :
    ∀ k start, (attemptLoop post start (k + 1)).1 = k + 1 ∧
      ∃ e, post (start + k) = .failure e ∧
        (attemptLoop post start (k + 1)).2 = some e := by
  intro k
  induction k with
  | zero =>
    intro start
    obtain ⟨e, he, hr⟩ := h start
    exact ⟨by simp [attemptLoop, he, hr], e, by simpa using he,
      by simp [attemptLoop, he, hr]⟩
  | succ k ih =>
    intro start
    obtain ⟨e, he, hr⟩ := h start
    obtain ⟨ih1, e2, he2, ih2⟩ := ih (start + 1)
    have hstep : attemptLoop post start (k + 1 + 1) =
        ((attemptLoop post (start + 1) (k + 1)).1 + 1,
         (attemptLoop post (start + 1) (k + 1)).2) := by
      rw [attemptLoop]
      simp [he, hr]
    refine ⟨?_, e2, ?_, ?_⟩
    · rw [hstep]
      simp [ih1]
    · have harith : start + 1 + k = start + (k + 1) := by omega
      rwa [harith] at he2
    · rw [hstep]
      simpa using ih2

/-- A post that always fails with the same retryable error drives
deliverWithRetry through its whole budget and into dead-lettering. -/
theorem deliverWithRetry_constFail (email : Email) (channel : String) (N : Nat)
    (e : ThrownError) (post : Nat → PostOutcome)
    (hp : ∀ i, post i = .failure e) (hr : isNonRetryableThrown e = false) :
    (deliverWithRetry email channel N post).postCalls = N + 1 ∧
    (deliverWithRetry email channel N post).deadLetter = some
      { email := email, channel := channel
        error := jsOr (errMessage e) "Unknown error"
        errorCode := errCode e, attempts := N + 1 } ∧
    (deliverWithRetry email channel N post).thrown = some e := by
  obtain ⟨h1, e2, he2, h2⟩ := attemptLoop_allFail post (fun i => ⟨e, hp i, hr⟩) N 0
  have hee : e2 = e := by
    have h' := (hp (0 + N)).symm.trans he2
    exact ((PostOutcome.failure.injEq _ _).mp h').symm
  subst hee
  exact ⟨by simp [deliverWithRetry, h1, h2], by simp [deliverWithRetry, h1, h2],
    by simp [deliverWithRetry, h1, h2]⟩

/-- C1: with maxRetries = N and every attempt failing with a retryable
error, the post operation is invoked exactly N + 1 times, the dead-letter
handler is invoked exactly once with a FailedEmailRecord whose attempts
field is N + 1 (message and code taken from the last error), and the last
error - the one of attempt index N - is re-thrown to the caller. -/
theorem retry_exhaustion_invariant (email : Email) (channel : String) (N : Nat)
    (post : Nat → PostOutcome)
    (h : ∀ i, ∃ e, post i = .failure e ∧ isNonRetryableThrown e = false) :
    (deliverWithRetry email channel N post).postCalls = N + 1 ∧
    ∃ e, post N = .failure e ∧
      (deliverWithRetry email channel N post).deadLetter = some
        { email := email, channel := channel
          error := jsOr (errMessage e) "Unknown error"
          errorCode := errCode e, attempts := N + 1 } ∧
      (deliverWithRetry email channel N post).thrown = some e := by
  obtain ⟨h1, e, he, h2⟩ := attemptLoop_allFail post h N 0
  rw [Nat.zero_add] at he
  exact ⟨by simp [deliverWithRetry, h1, h2], e, he,
    by simp [deliverWithRetry, h1, h2], by simp [deliverWithRetry, h1, h2]⟩

/-- C1 witness: N = 2 and a constant rate-limited failure give exactly 3
post calls, one dead-letter record with attempts 3, and the error
re-thrown. -/
theorem retry_exhaustion_invariant_witness :
    (deliverWithRetry c4wEmail "C1" 2
      (fun _ => .failure (.slackPost { message := "Rate limited by Slack API. Please retry later.", code := some "rate_limited" }))).postCalls = 3 ∧
    (deliverWithRetry c4wEmail "C1" 2
      (fun _ => .failure (.slackPost { message := "Rate limited by Slack API. Please retry later.", code := some "rate_limited" }))).deadLetter =
      some { email := c4wEmail, channel := "C1"
             error := "Rate limited by Slack API. Please retry later."
             errorCode := some "rate_limited", attempts := 3 } := by
  obtain ⟨h1, e, he, h2, h3⟩ := retry_exhaustion_invariant c4wEmail "C1" 2
    (fun _ => .failure (.slackPost { message := "Rate limited by Slack API. Please retry later.", code := some "rate_limited" }))
    (fun i => ⟨.slackPost { message := "Rate limited by Slack API. Please retry later.", code := some "rate_limited" }, rfl, by decide⟩)
  have he' : e = .slackPost { message := "Rate limited by Slack API. Please retry later.", code := some "rate_limited" } := by
    exact ((PostOutcome.failure.injEq _ _).mp he.symm)
  subst he'
  exact ⟨h1, by simpa [errMessage, errCode, jsOr] using h2⟩

/-- C2: when the first attempt fails with a SlackPostError whose code is
in the fixed non-retryable set as the claim enumerates it -
invalid_channel, channel_not_found, not_in_channel, is_archived,
invalid_auth, not_authed, account_inactive, token_revoked, token_expired,
no_permission, missing_scope - the loop breaks at once, whatever any
later attempt would have done: the embedded nonRetryableCodes list is
exactly that enumeration, the post operation is invoked exactly once with
no further attempts, the dead-letter handler is invoked immediately with
a record whose attempts field is 1, and the error is re-thrown. -/
theorem nonretryable_short_circuit (email : Email) (channel : String)
    (maxRetries : Nat) (post : Nat → PostOutcome) (e : SlackPostError) (c : String)
    (h0 : post 0 = .failure (.slackPost e)) (hc : e.code = some c)
    (hmem : c ∈ ["invalid_channel", "channel_not_found", "not_in_channel", "is_archived",
      "invalid_auth", "not_authed", "account_inactive", "token_revoked",
      "token_expired", "no_permission", "missing_scope"]) :
    nonRetryableCodes =
      ["invalid_channel", "channel_not_found", "not_in_channel", "is_archived",
       "invalid_auth", "not_authed", "account_inactive", "token_revoked",
       "token_expired", "no_permission", "missing_scope"] ∧
    (deliverWithRetry email channel maxRetries post).postCalls = 1 ∧
    (deliverWithRetry email channel maxRetries post).deadLetter = some
      { email := email, channel := channel
        error := jsOr e.message "Unknown error"
        errorCode := some c, attempts := 1 } ∧
    (deliverWithRetry email channel maxRetries post).thrown =
      some (.slackPost e) := by
  have hmem' : c ∈ nonRetryableCodes := hmem
  have hnr : isNonRetryableThrown (.slackPost e) = true := by
    simp [isNonRetryableThrown, hc, List.contains, hmem']
  have hloop : attemptLoop post 0 (maxRetries + 1) = (1, some (.slackPost e)) := by
    simp [attemptLoop, h0, hnr]
  refine ⟨rfl, ?_, ?_, ?_⟩ <;> simp [deliverWithRetry, hloop, errMessage, errCode, hc]

/-- C2 witness: a first-attempt channel_not_found failure under
maxRetries = 2 stops after one call and dead-letters with attempts 1. -/
theorem nonretryable_short_circuit_witness :
    (deliverWithRetry c4wEmail "C1" 2
      (fun _ => .failure (.slackPost { message := "Slack channel not found. Please check SLACK_CHANNEL_ID.", code := some "channel_not_found" }))).postCalls = 1 ∧
    (deliverWithRetry c4wEmail "C1" 2
      (fun _ => .failure (.slackPost { message := "Slack channel not found. Please check SLACK_CHANNEL_ID.", code := some "channel_not_found" }))).deadLetter =
      some { email := c4wEmail, channel := "C1"
             error := "Slack channel not found. Please check SLACK_CHANNEL_ID."
             errorCode := some "channel_not_found", attempts := 1 } := by
  obtain ⟨_, h1, h2, h3⟩ := nonretryable_short_circuit c4wEmail "C1" 2
    (fun _ => .failure (.slackPost { message := "Slack channel not found. Please check SLACK_CHANNEL_ID.", code := some "channel_not_found" }))
    { message := "Slack channel not found. Please check SLACK_CHANNEL_ID.", code := some "channel_not_found" }
    "channel_not_found" rfl rfl (by decide)
  exact ⟨h1, by simpa [jsOr] using h2⟩

/-- The first block of a formatted email is always the header block, with
the emoji-prefixed subject pushed through truncateText at the 140-unit
limit. -/
theorem formatEmailForSlack_head (convertHtml : JStr → JStr) (email : Email) :
    (formatEmailForSlack convertHtml email).blocks.head? =
      some (Block.header (truncateText (emailEmojiSp ++ email.subject) HEADER_TEXT_LIMIT)) := by
  by_cases h : (getEmailBodyText convertHtml email.body).length > BODY_TEXT_LIMIT <;>
  by_cases hcc : jsTruthy (email.cc.map formatEmailAddresses) <;>
    simp [formatEmailForSlack, h, hcc]

/-- The bodyAsFile payload is produced exactly when the derived body text
is strictly longer than the 2800-unit limit, and then carries the full
body text and the email-body-id.txt filename. -/
theorem formatEmailForSlack_bodyAsFile (convertHtml : JStr → JStr) (email : Email) :
    (formatEmailForSlack convertHtml email).bodyAsFile =
      if (getEmailBodyText convertHtml email.body).length > BODY_TEXT_LIMIT then
        some { content := getEmailBodyText convertHtml email.body
               filename := jstr "email-body-" ++ email.messageId ++ jstr ".txt" }
      else none := by
  by_cases h : (getEmailBodyText convertHtml email.body).length > BODY_TEXT_LIMIT <;>
    simp [formatEmailForSlack, h]

/-- The last block of a formatted email is the body section: the verbatim
body text within the limit, else the truncated preview with the
attached-as-file marker. -/
theorem formatEmailForSlack_last (convertHtml : JStr → JStr) (email : Email) :
    (formatEmailForSlack convertHtml email).blocks.getLast? =
      some (Block.sectionText
        (if (getEmailBodyText convertHtml email.body).length > BODY_TEXT_LIMIT then
          truncateText (getEmailBodyText convertHtml email.body) BODY_TEXT_LIMIT ++
            jstr "\n\n_Full email body attached as file._"
        else getEmailBodyText convertHtml email.body)) := by
  by_cases h : (getEmailBodyText convertHtml email.body).length > BODY_TEXT_LIMIT <;>
  by_cases hcc : jsTruthy (email.cc.map formatEmailAddresses) <;>
    simp [formatEmailForSlack, h, hcc, List.getLast?_append]

/-- C4 counterexample: the claim says a subject of at most 140 characters
is never truncated, but a 140-unit subject yields a header of 3 + 140
UTF-16 code units, which exceeds the 140-unit limit and is truncated, so
the header is not the emoji prefix followed by the subject. -/
theorem header_truncation_counterexample :
    c4Subject.length = 140 ∧
    (formatEmailForSlack (fun h => h) c4Email).blocks.head? ≠
      some (Block.header (emailEmojiSp ++ c4Subject)) := by
  constructor
  · simp [c4Subject]
  · decide

/-- C4 (amended): the header honours the 140-code-unit cap counting the
3-unit emoji-space prefix: a subject of at most 137 UTF-16 code units is
rendered untruncated as the emoji prefix plus the subject, and a subject
of 138 units or more yields a header of exactly 140 units ending in three
dots. -/
theorem header_truncation_boundary (convertHtml : JStr → JStr) (email : Email) :
    (email.subject.length ≤ 137 →
      (formatEmailForSlack convertHtml email).blocks.head? =
        some (Block.header (emailEmojiSp ++ email.subject))) ∧
    (137 < email.subject.length →
      ∃ t u, (formatEmailForSlack convertHtml email).blocks.head? =
          some (Block.header t) ∧ t.length = 140 ∧ t = u ++ jstr "...") := by
  have hh := formatEmailForSlack_head convertHtml email
  constructor
  · intro hle
    have hfit : (emailEmojiSp ++ email.subject).length ≤ HEADER_TEXT_LIMIT := by
      simp [emailEmojiSp, HEADER_TEXT_LIMIT]
      omega
    rw [hh, truncateText, if_pos hfit]
  · intro hgt
    have hover : ¬ (emailEmojiSp ++ email.subject).length ≤ HEADER_TEXT_LIMIT := by
      simp [emailEmojiSp, HEADER_TEXT_LIMIT]
      omega
    rw [hh, truncateText, if_neg hover]
    refine ⟨_, (emailEmojiSp ++ email.subject).take (HEADER_TEXT_LIMIT - 3), rfl, ?_, rfl⟩
    simp [jstr, emailEmojiSp, HEADER_TEXT_LIMIT]
    omega

/-- C4 witness: a five-character subject is rendered untruncated. -/
theorem header_truncation_boundary_witness :
    (formatEmailForSlack (fun h => h) c4wEmail).blocks.head? =
      some (Block.header (emailEmojiSp ++ jstr "Hello")) :=
  (header_truncation_boundary (fun h => h) c4wEmail).1 (by decide)

/-- C5: the file fallback triggers exactly when the derived body text is
strictly longer than 2800 code units; within the limit (2800 included)
bodyAsFile is absent and the last block embeds the body verbatim, above
it bodyAsFile carries the full trimmed body under the
email-body-id.txt name and the last block is the truncated preview
followed by the fixed attached-as-file marker. -/
theorem body_file_fallback (convertHtml : JStr → JStr) (email : Email) :
    ((getEmailBodyText convertHtml email.body).length ≤ 2800 →
      (formatEmailForSlack convertHtml email).bodyAsFile = none ∧
      (formatEmailForSlack convertHtml email).blocks.getLast? =
        some (Block.sectionText (getEmailBodyText convertHtml email.body))) ∧
    (2800 < (getEmailBodyText convertHtml email.body).length →
      (formatEmailForSlack convertHtml email).bodyAsFile = some
        { content := getEmailBodyText convertHtml email.body
          filename := jstr "email-body-" ++ email.messageId ++ jstr ".txt" } ∧
      (formatEmailForSlack convertHtml email).blocks.getLast? =
        some (Block.sectionText
          (truncateText (getEmailBodyText convertHtml email.body) 2800 ++
            jstr "\n\n_Full email body attached as file._"))) := by
  have hf := formatEmailForSlack_bodyAsFile convertHtml email
  have hl := formatEmailForSlack_last convertHtml email
  constructor
  · intro h
    have h' : ¬ (getEmailBodyText convertHtml email.body).length > BODY_TEXT_LIMIT := by
      simp [BODY_TEXT_LIMIT]
      omega
    refine ⟨?_, ?_⟩
    · rw [hf, if_neg h']
    · rw [hl, if_neg h']
  · intro h
    have h' : (getEmailBodyText convertHtml email.body).length > BODY_TEXT_LIMIT := h
    refine ⟨?_, ?_⟩
    · rw [hf, if_pos h']
    · rw [hl, if_pos h']
      exact rfl

/-- Removing the whitespace trim from a run of the letter a changes
nothing. -/
theorem jsTrim_replicate_a (n : Nat) : jsTrim (List.replicate n 97) = List.replicate n 97 := by
  have hw : isJsWhitespace 97 = false := by decide
  have h1 : ∀ m, List.dropWhile isJsWhitespace (List.replicate m 97) = List.replicate m 97 := by
    intro m
    cases m with
    | zero => rfl
    | succ k => simp [List.replicate_succ, List.dropWhile, hw]
  simp [jsTrim, h1, List.reverse_replicate]

/-- The derived body text of c5Email is its 2801-unit text body. -/
theorem c5Email_bodyText :
    getEmailBodyText (fun h => h) c5Email.body = List.replicate 2801 97 := by
  have hb : c5Email.body = { text := some (List.replicate 2801 97), html := none } := rfl
  have ht : jsTruthy (some (List.replicate 2801 97)) = true := by
    simp [jsTruthy, List.isEmpty_iff]
  rw [hb, getEmailBodyText]
  simp only [ht, if_pos, Option.getD_some]
  exact jsTrim_replicate_a 2801

/-- C5 witness: a 2801-unit body produces the file attachment carrying
the full body. -/
theorem body_file_fallback_witness :
    (formatEmailForSlack (fun h => h) c5Email).bodyAsFile = some
      { content := List.replicate 2801 97
        filename := jstr "email-body-" ++ jstr "m3" ++ jstr ".txt" } := by
  have hlen : 2800 < (getEmailBodyText (fun h => h) c5Email.body).length := by
    rw [c5Email_bodyText]
    simp
  have h := (body_file_fallback (fun h => h) c5Email).2 hlen
  rw [h.1, c5Email_bodyText]
  exact rfl

/-- When the channel is nonempty, the main message posts with a truthy
ts, the formatter produced a file and the threaded upload rejects while
the follow-up update succeeds, postEmailToSlack performs exactly one
update call appending the warning context element and throws the
file_upload_error SlackPostError. -/
theorem postEmailToSlack_uploadFail (convertHtml : JStr → JStr)
    (behavior : ChatBehavior) (channel : String) (email : Email)
    (resp : PostMessageResponse) (ue : ClientError) (f : FileAttachment)
    (hch : (jsTrim (jstr channel)).isEmpty = false)
    (hpm : behavior.postMessage = .ok resp)
    (hok : resp.ok = true) (hts : jsTruthyS resp.ts = true)
    (hfile : (formatEmailForSlack convertHtml email).bodyAsFile = some f)
    (hup : behavior.upload = .error ue)
    (hupd : behavior.update = .ok ()) :
    postEmailToSlack convertHtml behavior channel email =
      { result := .thrown
          { message := "Failed to upload email attachment: " ++ ue.message.getD "File upload failed"
            code := some "file_upload_error" }
        uploadCalls := 1
        updateCalls := [{ channel := channel, ts := resp.ts.getD ""
                          text := (formatEmailForSlack convertHtml email).text ++
                            jstr " (Attachment failed to upload)"
                          blocks := (formatEmailForSlack convertHtml email).blocks ++
                            [Block.context [jstr ":warning: *Attachment failed to upload.*"]] }] } := by
  simp [postEmailToSlack, hch, hpm, hok, hts, hfile, hup, hupd]

/-- A SlackPostError whose code is not in the non-retryable list is
classified retryable, whatever its message. -/
theorem isNonRetryable_of_code (m : String) (c : String)
    (hc : nonRetryableCodes.contains c = false) :
    isNonRetryableThrown (.slackPost { message := m, code := some c }) = false := by
  simp [isNonRetryableThrown]
  intro hmem
  have h2 : nonRetryableCodes.contains c = true := List.elem_eq_true_of_mem hmem
  rw [h2] at hc
  exact absurd hc (by decide)

/-- C3 (amended): when the threaded upload of the file attachment fails
after the main message was posted, post edits the original message,
appending the visible warning context element, and throws the terminal
file_upload_error; but that code is not in the non-retryable list, so
deliverWithRetry classifies it retryable and re-invokes post on every
attempt of its budget (maxRetries + 1 calls in total). -/
theorem upload_failure_update_and_classified_retryable
    (convertHtml : JStr → JStr) (behavior : ChatBehavior) (channel : String)
    (email : Email) (resp : PostMessageResponse) (ue : ClientError) (f : FileAttachment)
    (hch : (jsTrim (jstr channel)).isEmpty = false)
    (hpm : behavior.postMessage = .ok resp)
    (hok : resp.ok = true) (hts : jsTruthyS resp.ts = true)
    (hfile : (formatEmailForSlack convertHtml email).bodyAsFile = some f)
    (hup : behavior.upload = .error ue)
    (hupd : behavior.update = .ok ()) :
    ∃ e : SlackPostError,
      (postEmailToSlack convertHtml behavior channel email).result = .thrown e ∧
      e.code = some "file_upload_error" ∧
      (postEmailToSlack convertHtml behavior channel email).updateCalls =
        [{ channel := channel, ts := resp.ts.getD ""
           text := (formatEmailForSlack convertHtml email).text ++
             jstr " (Attachment failed to upload)"
           blocks := (formatEmailForSlack convertHtml email).blocks ++
             [Block.context [jstr ":warning: *Attachment failed to upload.*"]] }] ∧
      isNonRetryableThrown (.slackPost e) = false ∧
      ∀ N, (deliverWithRetry email channel N
          (fun _ => toPostOutcome (postEmailToSlack convertHtml behavior channel email))).postCalls =
        N + 1 := by
  have hpost := postEmailToSlack_uploadFail convertHtml behavior channel email
    resp ue f hch hpm hok hts hfile hup hupd
  refine ⟨{ message := "Failed to upload email attachment: " ++ ue.message.getD "File upload failed"
            code := some "file_upload_error" },
    by rw [hpost], rfl, by rw [hpost],
    isNonRetryable_of_code _ _ (by decide), ?_⟩
  intro N
  have h := deliverWithRetry_constFail email channel N
    (.slackPost
      { message := "Failed to upload email attachment: " ++ ue.message.getD "File upload failed"
        code := some "file_upload_error" })
    (fun _ => toPostOutcome (postEmailToSlack convertHtml behavior channel email))
    (fun i => by rw [hpost]; rfl) (isNonRetryable_of_code _ _ (by decide))
  exact h.1

/-- The single-attempt outcome under c3Behavior on the long email: the
file-upload failure mapped to a thrown file_upload_error. -/
theorem c3Post_eval : c3Post = fun _ => .failure (.slackPost
    { message := "Failed to upload email attachment: File upload failed"
      code := some "file_upload_error" }) := by
  have hlen : (getEmailBodyText (fun h => h) c5Email.body).length > BODY_TEXT_LIMIT := by
    rw [c5Email_bodyText]
    simp [BODY_TEXT_LIMIT]
  have hfile := formatEmailForSlack_bodyAsFile (fun h => h) c5Email
  rw [if_pos hlen] at hfile
  funext i
  show toPostOutcome (postEmailToSlack (fun h => h) c3Behavior "C12345" c5Email) = _
  rw [postEmailToSlack_uploadFail (fun h => h) c3Behavior "C12345" c5Email
    { ok := true, ts := some "12345.67", error := none }
    { code := none, message := some "File upload failed", dataError := none, dataMessage := none }
    _ (by decide) rfl rfl (by decide) hfile rfl rfl]
  rfl

/-- C3 counterexample: at this concrete input the first attempt throws
the attachment-upload error (code file_upload_error), yet under the
default budget maxRetries = 2 the post operation is invoked three times -
the attempt is retried, contrary to the claim. -/
theorem upload_failure_retried_counterexample :
    (∃ e, c3Post 0 = .failure (.slackPost e) ∧ e.code = some "file_upload_error") ∧
    (deliverWithRetry c5Email "C12345" 2 c3Post).postCalls = 3 := by
  constructor
  · exact ⟨_, by rw [c3Post_eval], rfl⟩
  · have h := deliverWithRetry_constFail c5Email "C12345" 2
      (.slackPost
        { message := "Failed to upload email attachment: File upload failed"
          code := some "file_upload_error" })
      c3Post (fun i => by rw [c3Post_eval]) (isNonRetryable_of_code _ _ (by decide))
    exact h.1

/-- C3 witness: the concrete long email under c3Behavior throws the
file_upload_error after the single update call. -/
theorem upload_failure_update_and_classified_retryable_witness :
    ∃ e : SlackPostError,
      (postEmailToSlack (fun h => h) c3Behavior "C12345" c5Email).result = .thrown e ∧
      e.code = some "file_upload_error" ∧
      (postEmailToSlack (fun h => h) c3Behavior "C12345" c5Email).updateCalls.length = 1 := by
  have hlen : (getEmailBodyText (fun h => h) c5Email.body).length > BODY_TEXT_LIMIT := by
    rw [c5Email_bodyText]
    simp [BODY_TEXT_LIMIT]
  have hfile := formatEmailForSlack_bodyAsFile (fun h => h) c5Email
  rw [if_pos hlen] at hfile
  obtain ⟨e, h1, h2, h3, _, _⟩ := upload_failure_update_and_classified_retryable
    (fun h => h) c3Behavior "C12345" c5Email
    { ok := true, ts := some "12345.67", error := none }
    { code := none, message := some "File upload failed", dataError := none, dataMessage := none }
    _ (by decide) rfl rfl (by decide) hfile rfl rfl
  exact ⟨e, h1, h2, by rw [h3]; rfl⟩

/-- The platform-error envelope with no nested code maps to the
unknown_platform_error sentinel. -/
theorem mapThrownClientError_noData (ce : ClientError)
    (hcode : ce.code = some "slack_webapi_platform_error")
    (hdata : ce.dataError = none ∨ ce.dataError = some "") :
    (mapThrownClientError ce).code = some "unknown_platform_error" := by
  rcases hdata with h | h <;> simp [mapThrownClientError, hcode, h, jsOrOpt, jsOr]

/-- C10: when the chat client rejects with a slack_webapi_platform_error
envelope carrying no nested code, post throws a SlackPostError whose code
is the unknown_platform_error sentinel; that sentinel is not in the
non-retryable list, so deliverWithRetry re-attempts up to its budget and
then dead-letters with attempts = maxRetries + 1. -/
theorem unknown_platform_error_retryable
    (convertHtml : JStr → JStr) (behavior : ChatBehavior) (channel : String)
    (email : Email) (ce : ClientError)
    (hch : (jsTrim (jstr channel)).isEmpty = false)
    (hpm : behavior.postMessage = .error ce)
    (hcode : ce.code = some "slack_webapi_platform_error")
    (hdata : ce.dataError = none ∨ ce.dataError = some "") :
    ∃ e : SlackPostError,
      (postEmailToSlack convertHtml behavior channel email).result = .thrown e ∧
      e.code = some "unknown_platform_error" ∧
      isNonRetryableThrown (.slackPost e) = false ∧
      ∀ N,
        (deliverWithRetry email channel N
          (fun _ => toPostOutcome (postEmailToSlack convertHtml behavior channel email))).postCalls =
            N + 1 ∧
        ∃ rec, (deliverWithRetry email channel N
            (fun _ => toPostOutcome (postEmailToSlack convertHtml behavior channel email))).deadLetter =
              some rec ∧ rec.attempts = N + 1 := by
  have hpost : postEmailToSlack convertHtml behavior channel email =
      { result := .thrown (mapThrownClientError ce), uploadCalls := 0, updateCalls := [] } := by
    simp [postEmailToSlack, hch, hpm]
  have hc2 := mapThrownClientError_noData ce hcode hdata
  have hnr : isNonRetryableThrown (.slackPost (mapThrownClientError ce)) = false := by
    simp [isNonRetryableThrown, hc2, nonRetryableCodes]
  refine ⟨mapThrownClientError ce, by rw [hpost], hc2, hnr, ?_⟩
  intro N
  have h := deliverWithRetry_constFail email channel N
    (.slackPost (mapThrownClientError ce))
    (fun _ => toPostOutcome (postEmailToSlack convertHtml behavior channel email))
    (fun i => by rw [hpost]; rfl) hnr
  exact ⟨h.1, _, h.2.1, rfl⟩

/-- C10 witness: the concrete envelope with no data payload yields the
sentinel and three post calls under maxRetries = 2. -/
theorem unknown_platform_error_retryable_witness :
    ∃ e : SlackPostError,
      (postEmailToSlack (fun h => h) c10Behavior "C1" c4wEmail).result = .thrown e ∧
      e.code = some "unknown_platform_error" ∧
      (deliverWithRetry c4wEmail "C1" 2
        (fun _ => toPostOutcome (postEmailToSlack (fun h => h) c10Behavior "C1" c4wEmail))).postCalls = 3 := by
  obtain ⟨e, h1, h2, h3, h4⟩ := unknown_platform_error_retryable (fun h => h) c10Behavior "C1" c4wEmail
    { code := some "slack_webapi_platform_error", message := some "An API error occurred"
      dataError := none, dataMessage := none }
    (by decide) rfl rfl (Or.inl rfl)
  exact ⟨e, h1, h2, (h4 2).1⟩

/-- C6: the sender-domain guard accepts exactly when the address has a
nonempty domain part after the first at sign, the resolved domain is
verified, and the domain part equals the domain field code unit for code
unit; and the case-variant a@Example.com against example.com is
rejected even though the domains agree up to case. -/
theorem sender_domain_guard (sender : EmailAddress) (d : Domain) :
    (validateSenderDomain sender d = .ok () ↔
      ∃ dp, (splitOnSep atUnit sender.address).get? 1 = some dp ∧ dp ≠ [] ∧
        d.verificationStatus = .verified ∧ dp = d.domain) ∧
    validateSenderDomain { name := none, address := jstr "a@Example.com" }
      { domainId := jstr "d1", teamId := jstr "T1", domain := jstr "example.com"
        verificationStatus := .verified } ≠ .ok () := by
  constructor
  · cases hsplit : (splitOnSep atUnit sender.address)[1]? with
    | none => simp [validateSenderDomain, hsplit]
    | some dp =>
      by_cases h1 : dp = [] <;>
      by_cases h2 : d.verificationStatus = .verified <;>
      by_cases h3 : dp = d.domain <;>
        (simp [validateSenderDomain, hsplit, h1, h2, h3, List.isEmpty_iff]
         try (split <;> simp))
  · have heval : validateSenderDomain { name := none, address := jstr "a@Example.com" }
        { domainId := jstr "d1", teamId := jstr "T1", domain := jstr "example.com"
          verificationStatus := .verified } =
        .error (jstr "Invalid sender domain: Example.com. Must be @example.com") := rfl
    rw [heval]
    exact fun h => Except.noConfusion h

/-- The send pipeline appends a log entry only on the branch that also
returns successfully. -/
theorem executeSendMail_logs (sendEmail : Email → SendContext → Except JStr JStr)
    (tenantConfig : Option TenantConfig) (domains : List Domain)
    (newMessageId : JStr) (now : Nat) (input : SendMailInput) (ctx : SendMailContext) :
    (executeSendMail sendEmail tenantConfig domains newMessageId now input ctx).logs = [] ∨
    (executeSendMail sendEmail tenantConfig domains newMessageId now input ctx).result.isOk =
      true := by
  unfold executeSendMail
  repeat' split
  all_goals try simp [Except.isOk]
  all_goals try split
  all_goals simp [Except.isOk, Except.toBool]

/-- C7: whenever the send pipeline surfaces an error - validation,
tenant resolution, domain selection, guard or dispatch - no EmailLog
entry is appended. -/
theorem pipeline_no_log_on_error (sendEmail : Email → SendContext → Except JStr JStr)
    (tenantConfig : Option TenantConfig) (domains : List Domain)
    (newMessageId : JStr) (now : Nat) (input : SendMailInput) (ctx : SendMailContext)
    (e : JStr)
    (h : (executeSendMail sendEmail tenantConfig domains newMessageId now input ctx).result =
      .error e) :
    (executeSendMail sendEmail tenantConfig domains newMessageId now input ctx).logs = [] := by
  rcases executeSendMail_logs sendEmail tenantConfig domains newMessageId now input ctx with
    hl | hok
  · exact hl
  · rw [h] at hok
    exact absurd hok (by simp [Except.isOk, Except.toBool])

/-- C7 witness: the sender x@unverified.com against a tenant whose only
domain is verified.com is rejected by the guard inside the SES dispatch,
and no EmailLog entry is written. -/
theorem pipeline_no_log_on_error_witness :
    (executeSendMail (sesSendEmail (.ok none)) (some { teamId := jstr "T1" }) [c7Domain]
      (jstr "<1.r@slackmail>") 1700000000000 c7Input c7Ctx).result = .error c7ErrMsg ∧
    (executeSendMail (sesSendEmail (.ok none)) (some { teamId := jstr "T1" }) [c7Domain]
      (jstr "<1.r@slackmail>") 1700000000000 c7Input c7Ctx).logs = [] :=
  ⟨rfl, pipeline_no_log_on_error (sesSendEmail (.ok none)) (some { teamId := jstr "T1" })
    [c7Domain] (jstr "<1.r@slackmail>") 1700000000000 c7Input c7Ctx c7ErrMsg rfl⟩

/-- C8: for a valid input under a tenant with at least one domain and no
selected domain id, the pipeline dispatches once using the first domain,
appends exactly one EmailLog entry with status sent and ttl equal to
now dropped to seconds plus 7,776,000 (a positive timestamp), and returns
the dispatch-reported message id. -/
theorem send_success_appends_log (sendEmail : Email → SendContext → Except JStr JStr)
    (tc : TenantConfig) (d0 : Domain) (rest : List Domain)
    (newMessageId : JStr) (now : Nat) (input : SendMailInput) (ctx : SendMailContext)
    (mid : JStr)
    (hval : validateSendMailInput input = .ok ())
    (hsel : ctx.selectedDomainId = none)
    (hsend : ∀ em sc, sendEmail em sc = .ok mid) :
    (executeSendMail sendEmail (some tc) (d0 :: rest) newMessageId now input ctx).result =
      .ok { messageId := mid } ∧
    (∃ em, (executeSendMail sendEmail (some tc) (d0 :: rest) newMessageId now input ctx).dispatched =
      [(em, { tenantConfig := tc, domain := d0, slackTeamId := ctx.slackTeamId
              slackChannelId := ctx.slackChannelId, slackUserId := ctx.slackUserId })]) ∧
    (executeSendMail sendEmail (some tc) (d0 :: rest) newMessageId now input ctx).logs =
      [{ messageId := mid, teamId := ctx.slackTeamId, channelId := ctx.slackChannelId
         userId := ctx.slackUserId, fromAddress := input.fromAddr.address
         toAddresses := input.toAddrs.map (fun a => a.address), subject := input.subject
         status := jstr "sent", sentAt := now, ttl := now / 1000 + 7776000 }] ∧
    0 < now / 1000 + 7776000 := by
  have httl : (now + ninetyDaysMs) / 1000 = now / 1000 + 7776000 := by
    have h9 : ninetyDaysMs = 7776000 * 1000 := by norm_num [ninetyDaysMs]
    rw [h9, Nat.add_mul_div_right _ _ (by norm_num)]
  have hexec : executeSendMail sendEmail (some tc) (d0 :: rest) newMessageId now input ctx =
      { result := .ok { messageId := mid }
        dispatched := [({ messageId := newMessageId, fromAddr := input.fromAddr
                          toAddrs := input.toAddrs, cc := input.cc, bcc := input.bcc
                          replyTo := input.replyTo, subject := input.subject
                          body := input.body, date := now, inReplyTo := input.inReplyTo
                          references := input.references },
                        { tenantConfig := tc, domain := d0, slackTeamId := ctx.slackTeamId
                          slackChannelId := ctx.slackChannelId
                          slackUserId := ctx.slackUserId })]
        logs := [{ messageId := mid, teamId := ctx.slackTeamId
                   channelId := ctx.slackChannelId, userId := ctx.slackUserId
                   fromAddress := input.fromAddr.address
                   toAddresses := input.toAddrs.map (fun a => a.address)
                   subject := input.subject, status := jstr "sent", sentAt := now
                   ttl := (now + ninetyDaysMs) / 1000 }] } := by
    simp [executeSendMail, hval, hsel, hsend]
  refine ⟨by rw [hexec], ⟨_, by rw [hexec]⟩, ?_, ?_⟩
  · rw [hexec]
    simp [httl]
  · exact Nat.lt_of_lt_of_le (by norm_num) (Nat.le_add_left _ _)

/-- C8 witness: a concrete valid send through an always-succeeding
dispatch returns the dispatch id and appends one sent log entry. -/
theorem send_success_appends_log_witness :
    (executeSendMail (fun _ _ => .ok (jstr "ses-id")) (some { teamId := jstr "T1" }) [c7Domain]
      (jstr "<1.r@slackmail>") 1700000000000 c8Input c7Ctx).result =
      .ok { messageId := jstr "ses-id" } ∧
    (executeSendMail (fun _ _ => .ok (jstr "ses-id")) (some { teamId := jstr "T1" }) [c7Domain]
      (jstr "<1.r@slackmail>") 1700000000000 c8Input c7Ctx).logs.length = 1 := by
  obtain ⟨h1, _, h3, _⟩ := send_success_appends_log (fun _ _ => .ok (jstr "ses-id"))
    { teamId := jstr "T1" } c7Domain [] (jstr "<1.r@slackmail>") 1700000000000 c8Input c7Ctx
    (jstr "ses-id") rfl rfl (fun _ _ => rfl)
  exact ⟨h1, by rw [h3]; rfl⟩

/-- A separator-free list splits to the one-element list of itself. -/
theorem splitOnSep_sepFree {α : Type} [DecidableEq α] (sep : α) (a : List α)
    (h : sep ∉ a) : splitOnSep sep a = [a] := by
  induction a with
  | nil => rfl
  | cons x xs ih =>
    have hx : ¬ x = sep := fun hh => h (hh ▸ List.mem_cons_self x xs)
    have hxs : sep ∉ xs := fun hh => h (List.mem_cons_of_mem _ hh)
    simp only [splitOnSep, if_neg hx, ih hxs]

/-- Splitting at the first separator occurrence peels off the
separator-free front segment. -/
theorem splitOnSep_append {α : Type} [DecidableEq α] (sep : α) (a b : List α)
    (h : sep ∉ a) : splitOnSep sep (a ++ sep :: b) = a :: splitOnSep sep b := by
  induction a with
  | nil => simp [splitOnSep]
  | cons x xs ih =>
    have hx : ¬ x = sep := fun hh => h (hh ▸ List.mem_cons_self x xs)
    have hxs : sep ∉ xs := fun hh => h (List.mem_cons_of_mem _ hh)
    simp only [List.cons_append, splitOnSep, if_neg hx, List.append_eq, ih hxs]

/-- Dropping an expected leading segment from exactly that segment plus a
rest yields the rest. -/
theorem stripLeading_append {α : Type} [DecidableEq α] (p s : List α) :
    stripLeading p (p ++ s) = some s := by
  induction p with
  | nil => rfl
  | cons x xs ih => simp [stripLeading, ih]

/-- A nonempty workspace name followed by the .slack.com suffix passes
the host test. -/
theorem hostOk_append (w : List Char) (hw : w ≠ []) :
    hostOk (w ++ ".slack.com".data) = true := by
  have hlen : (".slack.com".data).length = 10 := rfl
  have hwlen : 0 < w.length := List.length_pos.mpr hw
  unfold hostOk
  rw [List.length_append, hlen]
  have h1 : w.length + 10 - 10 = w.length := by omega
  rw [h1, List.drop_left]
  simp
  omega

/-- The regex of parseMessageUrl matches the decomposed URL and captures
the channel id and the digit run. -/
theorem matchUrl_slackUrl (w c d : List Char)
    (hw : w ≠ []) (hws : '/' ∉ w)
    (hc : c ≠ []) (hcc : ∀ x ∈ c, isChannelChar x)
    (hd : d ≠ []) (hdd : ∀ x ∈ d, x.isDigit) :
    matchUrl (slackUrl w c d) = some (c, d) := by
  have h1 : '/' ∉ w ++ ".slack.com".data := by
    intro hmem
    rcases List.mem_append.mp hmem with hm | hm
    · exact hws hm
    · revert hm
      decide
  have h2 : ('/' : Char) ∉ "archives".data := by decide
  have h3 : '/' ∉ c := fun hm => by
    have := hcc '/' hm
    revert this
    decide
  have h4 : '/' ∉ 'p' :: d := by
    intro hm
    rcases List.mem_cons.mp hm with hm | hm
    · exact absurd hm (by decide)
    · have := hdd '/' hm
      revert this
      decide
  have hcond1 : "archives".data = "archives".data ∧ hostOk (w ++ ".slack.com".data) = true ∧
      c ≠ [] ∧ c.all isChannelChar = true :=
    ⟨rfl, hostOk_append w hw, hc, List.all_eq_true.mpr (by simpa using hcc)⟩
  have hcond2 : d ≠ [] ∧ d.all Char.isDigit = true :=
    ⟨hd, List.all_eq_true.mpr (by simpa using hdd)⟩
  simp only [matchUrl, slackUrl, stripLeading_append, splitOnSep_append _ _ _ h1,
    splitOnSep_append _ _ _ h2, splitOnSep_append _ _ _ h3, splitOnSep_sepFree _ _ h4,
    if_pos hcond1, if_pos hcond2]
  rw [if_pos ⟨trivial, hostOk_append w hw, hc, List.all_eq_true.mpr (by simpa using hcc)⟩]

/-- C9: a URL of the documented shape with a nonempty slash-free
workspace, a nonempty A-Z 0-9 channel id and a nonempty digit run parses
to the channel id and the timestamp split after the tenth digit when the
run has at least 10 digits, raises the invalid-timestamp error when the
run is shorter, and any string the pattern does not match raises the
invalid-format error. -/
theorem message_url_parsing (w c d : List Char)
    (hw : w ≠ []) (hws : '/' ∉ w)
    (hc : c ≠ []) (hcc : ∀ x ∈ c, isChannelChar x)
    (hd : d ≠ []) (hdd : ∀ x ∈ d, x.isDigit) :
    (10 ≤ d.length →
      parseMessageUrl (slackUrl w c d) =
        .ok { channelId := c, timestamp := d.take 10 ++ '.' :: d.drop 10 }) ∧
    (d.length < 10 → parseMessageUrl (slackUrl w c d) = .error .invalidTimestamp) ∧
    (∀ url, matchUrl url = none → parseMessageUrl url = .error .invalidFormat) := by
  have hm := matchUrl_slackUrl w c d hw hws hc hcc hd hdd
  refine ⟨?_, ?_, ?_⟩
  · intro hlen
    simp [parseMessageUrl, hm, Nat.not_lt.mpr hlen]
  · intro hlen
    simp [parseMessageUrl, hm, hlen]
  · intro url hnone
    simp [parseMessageUrl, hnone]

/-- C9 witness: the documented example URL parses to channel C01234ABCD
and timestamp 1234567890.123456, and a three-digit run is rejected. -/
theorem message_url_parsing_witness :
    parseMessageUrl (slackUrl "myworkspace".data "C01234ABCD".data "1234567890123456".data) =
      .ok { channelId := "C01234ABCD".data, timestamp := "1234567890.123456".data } ∧
    parseMessageUrl (slackUrl "myworkspace".data "C01234ABCD".data "123".data) =
      .error .invalidTimestamp := by
  constructor
  · have h := (message_url_parsing "myworkspace".data "C01234ABCD".data "1234567890123456".data
      (by decide) (by decide) (by decide) (by decide) (by decide) (by decide)).1 (by decide)
    rw [h]
    exact congrArg Except.ok (by decide)
  · exact (message_url_parsing "myworkspace".data "C01234ABCD".data "123".data
      (by decide) (by decide) (by decide) (by decide) (by decide) (by decide)).2.1 (by decide)

end Slackmail
